import Mathlib

/-!
Verification of the containerd client of `runwasi`
(`crates/containerd-shim-wasm/src/sandbox/containerd/client.rs`).

The client talks to the containerd daemon over gRPC.  We embed the client's
control flow shallowly: every daemon response that the code inspects is a
field of an explicit environment record, and the functions below mirror the
Rust control flow over those responses.  Byte strings are `List Nat`.
The sha256 hash is kept abstract as a function parameter `sha : Bytes → String`
(the code calls the external `sha256::digest`); nothing in the claims depends
on the hash's definition, only on both sides computing the same one.

Effectful calls (content reads, record updates, …) are recorded in a trace of
`Call` values so that claims about which operations are (not) performed are
statements about the trace.
-/

/-- Byte strings (the model of Rust `Vec<u8>`). -/
abbrev Bytes := List Nat

/-- gRPC status codes, as far as the client distinguishes them: the code only
ever compares a status code against `Code::AlreadyExists`. -/
inductive GrpcCode where
  | alreadyExists
  | otherCode
deriving DecidableEq, Repr

/-- A gRPC error status.  `rendered` is the string produced by the status's
`Display` implementation; the client stores only this rendered text
(`e.to_string()`) in its own error type. -/
structure GrpcStatus where
  code : GrpcCode
  rendered : String
deriving DecidableEq, Repr

/-- The shim error type, restricted to the single variant the client
constructs: every daemon failure becomes `Error::Containerd(String)`. -/
inductive ShimError where
  | Containerd (msg : String)
deriving DecidableEq, Repr

/-- Write actions of the containerd content write protocol used here. -/
inductive WriteAction where
  | stat
  | commit
deriving DecidableEq, Repr

/-- The fields of `WriteContentRequest` that `save_content` populates
(`..Default::default()` fills the rest with empty defaults). -/
structure WriteContentRequest where
  ref : String := ""
  action : WriteAction
  total : Int := 0
  offset : Int := 0
  expected : String := ""
  labels : List (String × String) := []
  data : Bytes := []
deriving DecidableEq, Repr

/-- A response message on the write stream: an offset and a digest. -/
structure WriteResponse where
  offset : Int
  digest : String
deriving DecidableEq, Repr

/-- The lease returned by the daemon's leases service (only its id is used). -/
structure Lease where
  id : String
deriving DecidableEq, Repr

/-- The guard value `Client::lease` returns (address/namespace omitted: they
are copied from the client and unused by the claims). -/
structure LeaseGuard where
  lease_id : String
deriving DecidableEq, Repr

/-- Daemon behaviour during one `save_content` run.  Each field is the
response the daemon gives at the corresponding step of the protocol:
* `leaseCreate` — result of `LeasesClient::create` (`ok none` models a reply
  with no lease in it);
* `writeOpen`   — result of `ContentClient::write` on the request stream;
* `statResponse` — the first `response_stream.message()` (`ok none` models a
  closed stream with no message);
* `commitSend`  — result of sending the commit request into the channel;
* `commitResponse` — the second `response_stream.message()`. -/
structure SaveEnv where
  leaseCreate : Except GrpcStatus (Option Lease)
  writeOpen : Except GrpcStatus Unit
  statResponse : Except GrpcStatus (Option WriteResponse)
  commitSend : Except String Unit
  commitResponse : Except GrpcStatus (Option WriteResponse)

/-- Model of `Client::lease`: create a lease named by `reference`; any daemon
error is rendered into the generic `Containerd` error, a missing lease in the
reply becomes the `unable to create lease` error. -/
def leaseFor (env : SaveEnv) (reference : String) : Except ShimError LeaseGuard :=
  match env.leaseCreate with
  | .error e => .error (.Containerd e.rendered)
  | .ok none => .error (.Containerd ("unable to create lease for  " ++ reference))
  | .ok (some l) => .ok { lease_id := l.id }

/-- `format!("sha256:{}", digest(data))` — the locally computed expected
digest of the bytes being written. -/
def mkExpected (sha : Bytes → String) (data : Bytes) : String :=
  "sha256:" ++ sha data

/-- The Rust cast `i64 as usize` (64-bit target): two's-complement wrap into
`[0, 2^64)`. -/
def castUsize (i : Int) : Nat :=
  (i % (2 ^ 64)).toNat

/-- The stat request `save_content` sends first: reference, Stat action,
total length and expected digest; no data. -/
def statRequest (reference expected : String) (len : Int) : WriteContentRequest :=
  { ref := reference, action := .stat, total := len, expected := expected }

/-- The commit request `save_content` sends second: Commit action, total
length, the offset reported by the stat response, the expected digest, the
provenance label, and the remaining data suffix. -/
def commitRequest (len off : Int) (expected lbl orig : String) (dataToWrite : Bytes) :
    WriteContentRequest :=
  { action := .commit, total := len, offset := off, expected := expected,
    labels := [(lbl, orig)], data := dataToWrite }

/-- Outcome of `save_content`: success with the verified digest (the
`WriteContent` result), an error, or a Rust panic (out-of-bounds slice). -/
inductive SaveOutcome where
  | ok (digest : String)
  | err (e : ShimError)
  | panic
deriving DecidableEq, Repr

/-- Model of `Client::save_content`, paired with the list of
`WriteContentRequest`s it feeds into the write stream.  Mirrors the source:
compute the expected digest, take a lease on `"precompile-" ++ lbl`, send a
Stat request; an `AlreadyExists` error from the write call short-circuits
with success; otherwise read the stat response, slice the data at the
reported offset (a panic if the offset exceeds the length), send the Commit
request with the suffix, and validate the final response's offset and digest
against the input length and expected digest. -/
def save_content (sha : Bytes → String) (env : SaveEnv)
    (data : Bytes) (original_digest lbl : String) :
    SaveOutcome × List WriteContentRequest :=
  let expected := mkExpected sha data
  let reference := "precompile-" ++ lbl
  match leaseFor env reference with
  | .error e => (.err e, [])
  | .ok _lease =>
    let len : Int := data.length
    let req := statRequest reference expected len
    match env.writeOpen with
    | .error e =>
      if e.code = .alreadyExists then
        (.ok expected, [req])
      else
        (.err (.Containerd e.rendered), [req])
    | .ok _ =>
      match env.statResponse with
      | .error e => (.err (.Containerd e.rendered), [req])
      | .ok none =>
        (.err (.Containerd ("no response received after write request for " ++ expected)),
          [req])
      | .ok (some response) =>
        let off := castUsize response.offset
        if off ≤ data.length then
          let data_to_write := data.drop off
          let creq := commitRequest len response.offset expected lbl original_digest
            data_to_write
          match env.commitSend with
          | .error e =>
            (.err (.Containerd ("commit request error: " ++ e)), [req, creq])
          | .ok _ =>
            match env.commitResponse with
            | .error e =>
              (.err (.Containerd ("response stream error: " ++ e.rendered)), [req, creq])
            | .ok none =>
              (.err (.Containerd ("no response received after write request for " ++
                expected)), [req, creq])
            | .ok (some finalResp) =>
              if finalResp.offset ≠ len then
                (.err (.Containerd ("failed to write all bytes, expected " ++
                  toString len ++ " got " ++ toString finalResp.offset)), [req, creq])
              else if finalResp.digest ≠ expected then
                (.err (.Containerd ("unexpected digest, expected " ++ expected ++
                  " got " ++ finalResp.digest)), [req, creq])
              else
                (.ok finalResp.digest, [req, creq])
        else
          (.panic, [req])

/-- `static PRECOMPILE_PREFIX: &str = "runwasi.io/precompiled"`. -/
def PRECOMPILE_PREFIX : String := "runwasi.io/precompiled"

/-- `precompile_label`: the cache key `runwasi.io/precompiled/<name>/<version>`. -/
def precompile_label (name version : String) : String :=
  PRECOMPILE_PREFIX ++ "/" ++ name ++ "/" ++ version

/-- `is_supported_layer`: membership of the layer's media type string in the
engine's supported layer types. -/
def is_supported_layer (media_type : String) (supported_layer_types : List String) : Bool :=
  supported_layer_types.contains media_type

/-- An OCI descriptor, reduced to the fields the client reads. -/
structure OciDescriptor where
  media_type : String
  digest : String
deriving DecidableEq, Repr

/-- An OCI image manifest: config descriptor and layer descriptors. -/
structure Manifest where
  config : OciDescriptor
  layers : List OciDescriptor
deriving DecidableEq, Repr

/-- Platform architecture, as far as the client inspects it:
`Arch::Wasm` or anything else. -/
inductive Arch where
  | wasm
  | otherArch (name : String)
deriving DecidableEq, Repr

/-- Platform descriptor decoded from the image config blob. -/
structure Platform where
  architecture : Arch
deriving DecidableEq, Repr

/-- A containerd container record (only its image name is used). -/
structure Container where
  image : String
deriving DecidableEq, Repr

/-- A containerd image record: name, target descriptor, labels. -/
structure Image where
  name : String
  target : Option OciDescriptor
  labels : List (String × String)
deriving DecidableEq, Repr

/-- A containerd content `Info` record: digest and labels. -/
structure Info where
  digest : String
  labels : List (String × String)
deriving DecidableEq, Repr

/-- `WasmLayer`: a layer descriptor paired with its materialized bytes. -/
structure WasmLayer where
  config : OciDescriptor
  layer : Bytes
deriving DecidableEq, Repr

/-- The engine collaborator: static name, supported layer media types,
optional precompiler identity, and the precompile function. -/
structure Engine where
  name : String
  supported_layers_types : List String
  can_precompile : Option String
  precompile : List Bytes → Except ShimError Bytes

/-- Label lookup (`HashMap::get`) on an association list of labels. -/
def getLabel (ls : List (String × String)) (k : String) : Option String :=
  (ls.find? (fun p => p.1 == k)).map (fun p => p.2)

/-- Label insertion (`HashMap::insert`): replace the value under an existing
key, otherwise append the pair. -/
def insertLabel (ls : List (String × String)) (k v : String) : List (String × String) :=
  if ls.any (fun p => p.1 == k) then
    ls.map (fun p => if p.1 == k then (k, v) else p)
  else
    ls ++ [(k, v)]

/-- `FieldMask` of an update request. -/
structure FieldMask where
  paths : List String
deriving DecidableEq, Repr

/-- The `UpdateRequest` that `Client::update_info` sends. -/
structure UpdateRequest where
  info : Option Info
  update_mask : Option FieldMask
deriving DecidableEq, Repr

/-- The `UpdateImageRequest` that `Client::update_image` sends. -/
structure UpdateImageRequest where
  image : Option Image
  update_mask : Option FieldMask
deriving DecidableEq, Repr

/-- The request `Client::update_info` builds: the record plus an update mask
whose paths are exactly `["labels"]`. -/
def update_info_request (info : Info) : UpdateRequest :=
  { info := some info, update_mask := some { paths := ["labels"] } }

/-- The request `Client::update_image` builds: the record plus an update mask
whose paths are exactly `["labels"]`. -/
def update_image_request (image : Image) : UpdateImageRequest :=
  { image := some image, update_mask := some { paths := ["labels"] } }

/-- One observable daemon call made during `load_modules`, for the effect
trace.  `readContent d` is a content fetch of digest `d`; `updateImage` and
`updateInfo` record the label set sent with the update. -/
inductive Call where
  | getContainer (id : String)
  | getImage (name : String)
  | readContent (digest : String)
  | precompileCall
  | saveContent (lbl : String)
  | updateImage (labels : List (String × String))
  | getInfo (digest : String)
  | updateInfo (labels : List (String × String))
deriving DecidableEq, Repr

/-- Daemon behaviour seen by one `load_modules` run: results of the record
getters, content reads, decoders (pure decode of manifest / platform config
bytes), info lookup, the two label updates, and the nested `save_content`
daemon environment. -/
structure ClientEnv where
  get_container : String → Except ShimError Container
  get_image : String → Except ShimError Image
  read_content : String → Except ShimError Bytes
  decodeManifest : Bytes → Except ShimError Manifest
  decodePlatform : Bytes → Except ShimError Platform
  get_info : String → Except ShimError Info
  update_image : Image → Except ShimError Unit
  update_info : Info → Except ShimError Unit
  saveEnv : SaveEnv

/-- `Client::extract_image_content_sha`: the digest of the image's target
descriptor, or an error when the target is absent. -/
def extract_image_content_sha (image : Image) : Except ShimError String :=
  match image.target with
  | none =>
    .error (.Containerd ("failed to get image content sha for image " ++ image.name))
  | some d => .ok d.digest

/-- Outcome of `load_modules`: the layers and platform, an error, or a panic
propagated from `save_content`. -/
inductive LoadOutcome where
  | ok (layers : List WasmLayer) (platform : Platform)
  | err (e : ShimError)
  | panic
deriving DecidableEq, Repr

/-- The layer-fetch loop
`manifest.layers().iter().filter(...).map(|c| self.read_content(c.digest())).collect::<Result<_>>()`:
reads each descriptor's content in order and short-circuits at the first
error (a lazy iterator under `collect::<Result<…>>` fetches nothing past the
failure).  Returns the collected bytes and the trace of reads performed. -/
def fetchLayers (env : ClientEnv) : List OciDescriptor →
    Except ShimError (List Bytes) × List Call
  | [] => (.ok [], [])
  | d :: rest =>
    match env.read_content d.digest with
    | .error e => (.error e, [.readContent d.digest])
    | .ok b =>
      match fetchLayers env rest with
      | (.ok bs, tr) => (.ok (b :: bs), .readContent d.digest :: tr)
      | (.error e, tr) => (.error e, .readContent d.digest :: tr)

/-- The tail of `load_modules` after the cache lookup (source lines 492-554):
fetch the supported layers; if none, return empty; if the engine precompiles,
precompile, save the artifact, update the image label under the cache key,
set the GC-root label on the manifest's content record, and return the
artifact as the sole layer; otherwise return the fetched layers paired with
the config descriptor. -/
def load_modules_rest (sha : Bytes → String) (env : ClientEnv) (eng : Engine)
    (image : Image) (image_digest : String) (cfgDesc : OciDescriptor)
    (platform : Platform) (manifest : Manifest)
    (canPre : Bool) (precompile_id : String) : LoadOutcome × List Call :=
  let supported := manifest.layers.filter
    (fun x => is_supported_layer x.media_type eng.supported_layers_types)
  match fetchLayers env supported with
  | (.error e, tr) => (.err e, tr)
  | (.ok layers, tr) =>
    if layers.isEmpty then
      (.ok [] platform, tr)
    else if canPre then
      match eng.precompile layers with
      | .error e => (.err e, tr ++ [.precompileCall])
      | .ok precompiled =>
        match save_content sha env.saveEnv precompiled image_digest precompile_id with
        | (.panic, _) => (.panic, tr ++ [.precompileCall, .saveContent precompile_id])
        | (.err e, _) => (.err e, tr ++ [.precompileCall, .saveContent precompile_id])
        | (.ok wdigest, _) =>
          let image2 : Image :=
            { image with labels := insertLabel image.labels precompile_id wdigest }
          match env.update_image image2 with
          | .error e =>
            (.err e, tr ++ [.precompileCall, .saveContent precompile_id,
              .updateImage image2.labels])
          | .ok _ =>
            match env.get_info image_digest with
            | .error e =>
              (.err e, tr ++ [.precompileCall, .saveContent precompile_id,
                .updateImage image2.labels, .getInfo image_digest])
            | .ok info =>
              let newInfoLabels := insertLabel info.labels
                "containerd.io/gc.ref.content.precompile" wdigest
              let info2 : Info := { info with labels := newInfoLabels }
              match env.update_info info2 with
              | .error e =>
                (.err e, tr ++ [.precompileCall, .saveContent precompile_id,
                  .updateImage image2.labels, .getInfo image_digest,
                  .updateInfo info2.labels])
              | .ok _ =>
                (.ok [{ config := cfgDesc, layer := precompiled }] platform,
                  tr ++ [.precompileCall, .saveContent precompile_id,
                    .updateImage image2.labels, .getInfo image_digest,
                    .updateInfo info2.labels])
    else
      (.ok (layers.map (fun m => { config := cfgDesc, layer := m })) platform, tr)

/-- The tuple-let
`let (can_precompile, precompile_id) = match engine.can_precompile() ...`:
whether the engine precompiles, and the cache key (empty when it cannot). -/
def precompileIdOf (eng : Engine) : Bool × String :=
  match eng.can_precompile with
  | some v => (true, precompile_label eng.name v)
  | none => (false, "")

/-- Model of `Client::load_modules`: resolve container → image → manifest →
config → platform; bail out with empty layers when the architecture is not
Wasm; compute the precompile cache key; on a cache hit return the cached
content as the sole layer; on a failed cache read or an absent key fall
through to `load_modules_rest`. -/
def load_modules (sha : Bytes → String) (env : ClientEnv) (eng : Engine)
    (containerd_id : String) : LoadOutcome × List Call :=
  match env.get_container containerd_id with
  | .error e => (.err e, [.getContainer containerd_id])
  | .ok container =>
    match env.get_image container.image with
    | .error e => (.err e, [.getContainer containerd_id, .getImage container.image])
    | .ok image =>
      match extract_image_content_sha image with
      | .error e => (.err e, [.getContainer containerd_id, .getImage container.image])
      | .ok image_digest =>
        match env.read_content image_digest with
        | .error e =>
          (.err e, [.getContainer containerd_id, .getImage container.image,
            .readContent image_digest])
        | .ok manifestBytes =>
          match env.decodeManifest manifestBytes with
          | .error e =>
            (.err e, [.getContainer containerd_id, .getImage container.image,
              .readContent image_digest])
          | .ok manifest =>
            let cfgDesc := manifest.config
            match env.read_content cfgDesc.digest with
            | .error e =>
              (.err e, [.getContainer containerd_id, .getImage container.image,
                .readContent image_digest, .readContent cfgDesc.digest])
            | .ok imageConfig =>
              match env.decodePlatform imageConfig with
              | .error e =>
                (.err e, [.getContainer containerd_id, .getImage container.image,
                  .readContent image_digest, .readContent cfgDesc.digest])
              | .ok platform =>
                let pre : List Call := [.getContainer containerd_id,
                  .getImage container.image, .readContent image_digest,
                  .readContent cfgDesc.digest]
                match platform.architecture with
                | .otherArch _ => (.ok [] platform, pre)
                | .wasm =>
                  let cp := precompileIdOf eng
                  let canPre := cp.1
                  let precompile_id := cp.2
                  match getLabel image.labels precompile_id, canPre with
                  | some pd, true =>
                    match env.read_content pd with
                    | .ok precompiled =>
                      (.ok [{ config := cfgDesc, layer := precompiled }] platform,
                        pre ++ [.readContent pd])
                    | .error _ =>
                      let rest := load_modules_rest sha env eng image image_digest
                        cfgDesc platform manifest canPre precompile_id
                      (rest.1, pre ++ [.readContent pd] ++ rest.2)
                  | _, _ =>
                    let rest := load_modules_rest sha env eng image image_digest
                      cfgDesc platform manifest canPre precompile_id
                    (rest.1, pre ++ rest.2)

/-- C1: a write that reaches the commit phase (lease acquired, stream
opened, stat response delivered with an in-bounds offset, commit request
sent, final response delivered) returns a success value only if the final
response's offset equals the input length and its digest equals the locally
computed expected digest; if either differs, `save_content` returns an
error. -/
theorem save_content_verifies (sha : Bytes → String) (env : SaveEnv)
    (data : Bytes) (orig lbl : String) (l : Lease) (resp1 finalResp : WriteResponse)
    (hl : env.leaseCreate = .ok (some l))
    (hw : env.writeOpen = .ok ())
    (hs : env.statResponse = .ok (some resp1))
    (hoff : castUsize resp1.offset ≤ data.length)
    (hcs : env.commitSend = .ok ())
    (hcr : env.commitResponse = .ok (some finalResp)) :
    (∀ d, (save_content sha env data orig lbl).1 = .ok d →
      finalResp.offset = (data.length : Int) ∧
      finalResp.digest = mkExpected sha data ∧ d = mkExpected sha data) ∧
    ((finalResp.offset ≠ (data.length : Int) ∨ finalResp.digest ≠ mkExpected sha data) →
      ∃ e, (save_content sha env data orig lbl).1 = .err e) := by
  constructor
  · intro d hd
    by_cases h1 : finalResp.offset = (data.length : Int)
    · by_cases h2 : finalResp.digest = mkExpected sha data
      · refine ⟨h1, h2, ?_⟩
        simp [save_content, leaseFor, hl, hw, hs, hcs, hcr, hoff, h1, h2] at hd
        exact hd.symm
      · exfalso
        simp [save_content, leaseFor, hl, hw, hs, hcs, hcr, hoff, h1, h2] at hd
    · exfalso
      simp [save_content, leaseFor, hl, hw, hs, hcs, hcr, hoff, h1] at hd
  · intro hmm
    by_cases h1 : finalResp.offset = (data.length : Int)
    · have h2 : finalResp.digest ≠ mkExpected sha data := by
        rcases hmm with h | h
        · exact absurd h1 h
        · exact h
      refine ⟨ShimError.Containerd ("unexpected digest, expected " ++
        mkExpected sha data ++ " got " ++ finalResp.digest), ?_⟩
      simp [save_content, leaseFor, hl, hw, hs, hcs, hcr, hoff, h1, h2]
    · refine ⟨ShimError.Containerd ("failed to write all bytes, expected " ++
        toString ((data.length : Nat) : Int) ++ " got " ++ toString finalResp.offset), ?_⟩
      simp [save_content, leaseFor, hl, hw, hs, hcs, hcr, hoff, h1]

/-- A daemon environment for `save_content` in which every phase succeeds:
the stat response reports offset 0 and the final response reports the full
length `2` and the expected digest of `[1, 2]` under the hash
`fun _ => "h"`. -/
def c1Env : SaveEnv :=
  { leaseCreate := .ok (some { id := "lid" }),
    writeOpen := .ok (),
    statResponse := .ok (some { offset := 0, digest := "" }),
    commitSend := .ok (),
    commitResponse := .ok (some { offset := 2, digest := "sha256:h" }) }

/-- Witness for C1 at a concrete input. -/
theorem save_content_verifies_witness :
    (∀ d, (save_content (fun _ => "h") c1Env [1, 2] "o" "l").1 = .ok d →
      (2 : Int) = ((2 : Nat) : Int) ∧
      "sha256:h" = mkExpected (fun _ => "h") [1, 2] ∧
      d = mkExpected (fun _ => "h") [1, 2]) ∧
    (((2 : Int) ≠ ((2 : Nat) : Int) ∨
        "sha256:h" ≠ mkExpected (fun _ => "h") [1, 2]) →
      ∃ e, (save_content (fun _ => "h") c1Env [1, 2] "o" "l").1 = .err e) :=
  save_content_verifies (fun _ => "h") c1Env [1, 2] "o" "l"
    { id := "lid" } { offset := 0, digest := "" } { offset := 2, digest := "sha256:h" }
    rfl rfl rfl (by decide) rfl rfl

/-- C2: when the lease is acquired (the previous lease having been released)
and the daemon answers the stat-phase write call with `AlreadyExists`,
`save_content` short-circuits: it succeeds with exactly the locally computed
expected digest, the only request sent is the stat request, and no request
carries any content bytes. -/
theorem save_content_already_exists (sha : Bytes → String) (env : SaveEnv)
    (data : Bytes) (orig lbl : String) (l : Lease) (st : GrpcStatus)
    (hl : env.leaseCreate = .ok (some l))
    (hw : env.writeOpen = .error st)
    (hcode : st.code = .alreadyExists) :
    (save_content sha env data orig lbl).1 = .ok (mkExpected sha data) ∧
    (save_content sha env data orig lbl).2 =
      [statRequest ("precompile-" ++ lbl) (mkExpected sha data) (data.length : Int)] ∧
    ∀ r ∈ (save_content sha env data orig lbl).2, r.data = ([] : Bytes) := by
  refine ⟨?_, ?_, ?_⟩ <;>
    simp [save_content, leaseFor, hl, hw, hcode, statRequest]

/-- A daemon environment whose stat-phase write call fails with
`AlreadyExists`: the content is already in the store. -/
def c2Env : SaveEnv :=
  { leaseCreate := .ok (some { id := "lid" }),
    writeOpen := .error { code := .alreadyExists, rendered := "already exists" },
    statResponse := .ok none,
    commitSend := .ok (),
    commitResponse := .ok none }

/-- Witness for C2 at a concrete input. -/
theorem save_content_already_exists_witness :
    (save_content (fun _ => "h") c2Env [1, 2] "o" "l").1 =
      .ok (mkExpected (fun _ => "h") [1, 2]) ∧
    (save_content (fun _ => "h") c2Env [1, 2] "o" "l").2 =
      [statRequest ("precompile-" ++ "l") (mkExpected (fun _ => "h") [1, 2])
        (([1, 2] : Bytes).length : Int)] ∧
    ∀ r ∈ (save_content (fun _ => "h") c2Env [1, 2] "o" "l").2, r.data = ([] : Bytes) :=
  save_content_already_exists (fun _ => "h") c2Env [1, 2] "o" "l"
    { id := "lid" } { code := .alreadyExists, rendered := "already exists" }
    rfl rfl rfl

/-- C3: when the stat phase is reached and its response reports an in-bounds
offset, the commit request is the second and last request sent; it carries
exactly the suffix of the input starting at that offset, the full input
length as `total`, the stat response's offset as `offset`, and the expected
digest — bytes before the offset are never re-sent. -/
theorem save_content_commit_suffix (sha : Bytes → String) (env : SaveEnv)
    (data : Bytes) (orig lbl : String) (l : Lease) (resp1 : WriteResponse)
    (hl : env.leaseCreate = .ok (some l))
    (hw : env.writeOpen = .ok ())
    (hs : env.statResponse = .ok (some resp1))
    (hoff : castUsize resp1.offset ≤ data.length) :
    ∃ cr, (save_content sha env data orig lbl).2 =
        [statRequest ("precompile-" ++ lbl) (mkExpected sha data) (data.length : Int), cr] ∧
      cr.action = .commit ∧
      cr.data = data.drop (castUsize resp1.offset) ∧
      cr.total = (data.length : Int) ∧
      cr.offset = resp1.offset ∧
      cr.expected = mkExpected sha data := by
  refine ⟨commitRequest (data.length : Int) resp1.offset (mkExpected sha data) lbl orig
    (data.drop (castUsize resp1.offset)), ?_, rfl, rfl, rfl, rfl, rfl⟩
  rcases hcs : env.commitSend with e | u
  · simp [save_content, leaseFor, hl, hw, hs, hoff, hcs]
  · rcases hcr : env.commitResponse with e | r
    · simp [save_content, leaseFor, hl, hw, hs, hoff, hcs, hcr]
    · rcases r with _ | fr
      · simp [save_content, leaseFor, hl, hw, hs, hoff, hcs, hcr]
      · by_cases h1 : fr.offset = (data.length : Int) <;>
          by_cases h2 : fr.digest = mkExpected sha data <;>
          simp [save_content, leaseFor, hl, hw, hs, hoff, hcs, hcr, h1, h2]

/-- A daemon environment whose stat response reports offset 1 for a
three-byte write: one byte is already present. -/
def c3Env : SaveEnv :=
  { leaseCreate := .ok (some { id := "lid" }),
    writeOpen := .ok (),
    statResponse := .ok (some { offset := 1, digest := "" }),
    commitSend := .ok (),
    commitResponse := .ok (some { offset := 3, digest := "sha256:h" }) }

/-- Witness for C3 at a concrete input: only the two-byte suffix is sent. -/
theorem save_content_commit_suffix_witness :
    ∃ cr, (save_content (fun _ => "h") c3Env [7, 8, 9] "o" "l").2 =
        [statRequest ("precompile-" ++ "l") (mkExpected (fun _ => "h") [7, 8, 9])
          (([7, 8, 9] : Bytes).length : Int), cr] ∧
      cr.action = .commit ∧
      cr.data = ([7, 8, 9] : Bytes).drop (castUsize (1 : Int)) ∧
      cr.total = (([7, 8, 9] : Bytes).length : Int) ∧
      cr.offset = (1 : Int) ∧
      cr.expected = mkExpected (fun _ => "h") [7, 8, 9] :=
  save_content_commit_suffix (fun _ => "h") c3Env [7, 8, 9] "o" "l"
    { id := "lid" } { offset := 1, digest := "" }
    rfl rfl rfl (by decide)

/-- Helper: once the stat response is in hand, the run panics exactly when
the wrapped `i64 as usize` offset exceeds the data length (the only panic
site is the slice `data[response.offset as usize..]`). -/
theorem save_content_panic_iff_cast (sha : Bytes → String) (env : SaveEnv)
    (data : Bytes) (orig lbl : String) (l : Lease) (resp1 : WriteResponse)
    (hl : env.leaseCreate = .ok (some l))
    (hw : env.writeOpen = .ok ())
    (hs : env.statResponse = .ok (some resp1)) :
    ((save_content sha env data orig lbl).1 = .panic ↔
      data.length < castUsize resp1.offset) := by
  by_cases hoff : castUsize resp1.offset ≤ data.length
  · have hno : ¬ data.length < castUsize resp1.offset := by omega
    simp only [hno, iff_false]
    rcases hcs : env.commitSend with e | u
    · simp [save_content, leaseFor, hl, hw, hs, hoff, hcs]
    · rcases hcr : env.commitResponse with e | r
      · simp [save_content, leaseFor, hl, hw, hs, hoff, hcs, hcr]
      · rcases r with _ | fr
        · simp [save_content, leaseFor, hl, hw, hs, hoff, hcs, hcr]
        · by_cases h1 : fr.offset = (data.length : Int) <;>
            by_cases h2 : fr.digest = mkExpected sha data <;>
            simp [save_content, leaseFor, hl, hw, hs, hoff, hcs, hcr, h1, h2]
  · have hyes : data.length < castUsize resp1.offset := by omega
    simp [save_content, leaseFor, hl, hw, hs, hoff, hyes]

/-- C10: with a realistic vector length (below `2 ^ 63`, the Rust `Vec`
bound) and a stat response whose offset is a 64-bit integer, the run reaches
the slice and panics exactly when the offset is negative or greater than the
input length; inside `0 ≤ offset ≤ length` it never panics. -/
theorem save_content_panics_on_oob (sha : Bytes → String) (env : SaveEnv)
    (data : Bytes) (orig lbl : String) (l : Lease) (resp1 : WriteResponse)
    (hl : env.leaseCreate = .ok (some l))
    (hw : env.writeOpen = .ok ())
    (hs : env.statResponse = .ok (some resp1))
    (hlen : data.length < 2 ^ 63)
    (hlo : -(2 ^ 63) ≤ resp1.offset)
    (hhi : resp1.offset < 2 ^ 63) :
    ((save_content sha env data orig lbl).1 = .panic ↔
      (resp1.offset < 0 ∨ (data.length : Int) < resp1.offset)) := by
  rw [save_content_panic_iff_cast sha env data orig lbl l resp1 hl hw hs]
  unfold castUsize
  omega

/-- A daemon environment whose stat response reports offset 5 for a
two-byte write: past the end of the data. -/
def c10Env : SaveEnv :=
  { leaseCreate := .ok (some { id := "lid" }),
    writeOpen := .ok (),
    statResponse := .ok (some { offset := 5, digest := "" }),
    commitSend := .ok (),
    commitResponse := .ok (some { offset := 2, digest := "sha256:h" }) }

/-- Witness for C10 at a concrete input: offset 5 on two bytes panics. -/
theorem save_content_panics_on_oob_witness :
    ((save_content (fun _ => "h") c10Env [1, 2] "o" "l").1 = .panic ↔
      ((5 : Int) < 0 ∨ (([1, 2] : Bytes).length : Int) < (5 : Int))) :=
  save_content_panics_on_oob (fun _ => "h") c10Env [1, 2] "o" "l"
    { id := "lid" } { offset := 5, digest := "" }
    rfl rfl rfl (by decide) (by decide) (by decide)

/-- A daemon environment in which creating the lease fails with
`AlreadyExists` (the reference label's lease from a previous write is still
open) and the daemon renders the status as `"m"`. -/
def c7LeaseHeldEnv : SaveEnv :=
  { leaseCreate := .error { code := .alreadyExists, rendered := "m" },
    writeOpen := .ok (),
    statResponse := .ok none,
    commitSend := .ok (),
    commitResponse := .ok none }

/-- A daemon environment in which the lease is granted but the stat-phase
write call fails with an unrelated transport error rendered as `"m"`. -/
def c7OtherFailEnv : SaveEnv :=
  { leaseCreate := .ok (some { id := "lid" }),
    writeOpen := .error { code := .otherCode, rendered := "m" },
    statResponse := .ok none,
    commitSend := .ok (),
    commitResponse := .ok none }

/-- C7 counterexample: a write under a still-open lease and a write hitting
an unrelated transport failure produce the *same* error value
`Containerd "m"` — the lease-held failure is not a distinct conflict
condition distinguishable from other write errors.  (`Client::lease` maps
every status, `AlreadyExists` included, through `e.to_string()` into the one
generic `Containerd` variant; only the write phase inspects the code.) -/
theorem save_content_lease_conflict_not_distinct :
    (save_content (fun _ => "h") c7LeaseHeldEnv [1, 2] "o" "l").1 =
      .err (.Containerd "m") ∧
    (save_content (fun _ => "h") c7OtherFailEnv [1, 2] "o" "l").1 =
      .err (.Containerd "m") :=
  ⟨rfl, rfl⟩

/-- C7 (amended): a second write attempt whose reference label's lease is
still open (the daemon answers the lease creation with `AlreadyExists`)
fails — `save_content` returns an error and sends no write request — but
the error is the generic `Containerd` error carrying only the daemon's
rendered status text, the same variant used for every other daemon
failure. -/
theorem save_content_lease_conflict_generic (sha : Bytes → String) (env : SaveEnv)
    (data : Bytes) (orig lbl : String) (st : GrpcStatus)
    (hl : env.leaseCreate = .error st)
    (_hcode : st.code = .alreadyExists) :
    (save_content sha env data orig lbl).1 = .err (.Containerd st.rendered) ∧
    (save_content sha env data orig lbl).2 = [] := by
  constructor <;> simp [save_content, leaseFor, hl]

/-- Witness for the amended C7 at a concrete input. -/
theorem save_content_lease_conflict_generic_witness :
    (save_content (fun _ => "h") c7LeaseHeldEnv [1, 2] "o" "l").1 =
      .err (.Containerd "m") ∧
    (save_content (fun _ => "h") c7LeaseHeldEnv [1, 2] "o" "l").2 = [] :=
  save_content_lease_conflict_generic (fun _ => "h") c7LeaseHeldEnv [1, 2] "o" "l"
    { code := .alreadyExists, rendered := "m" } rfl rfl

/-- C9: every record update the client issues carries an explicit field mask
whose paths are exactly `["labels"]` — `update_info` on content records and
`update_image` on image records alike — so no field of the record other than
its labels is ever written. -/
theorem update_requests_mask_labels_only :
    (∀ info : Info, (update_info_request info).update_mask = some { paths := ["labels"] }) ∧
    (∀ image : Image, (update_image_request image).update_mask = some { paths := ["labels"] }) :=
  ⟨fun _ => rfl, fun _ => rfl⟩

/-- C5: when the image's decoded platform architecture is not Wasm,
`load_modules` returns successfully with an empty layer list and the decoded
platform, and its trace consists of exactly the four resolution calls —
no layer fetch, no precompile, no save, and no label update happen. -/
theorem load_modules_arch_gate (sha : Bytes → String) (env : ClientEnv) (eng : Engine)
    (cid : String) (container : Container) (image : Image) (td : OciDescriptor)
    (mb cb : Bytes) (manifest : Manifest) (platform : Platform) (a : String)
    (hc : env.get_container cid = .ok container)
    (hi : env.get_image container.image = .ok image)
    (ht : image.target = some td)
    (hm : env.read_content td.digest = .ok mb)
    (hdm : env.decodeManifest mb = .ok manifest)
    (hcf : env.read_content manifest.config.digest = .ok cb)
    (hdp : env.decodePlatform cb = .ok platform)
    (ha : platform.architecture = .otherArch a) :
    load_modules sha env eng cid =
      (.ok [] platform,
        [.getContainer cid, .getImage container.image, .readContent td.digest,
          .readContent manifest.config.digest]) := by
  simp [load_modules, extract_image_content_sha, hc, hi, ht, hm, hdm, hcf, hdp, ha]

/-- The daemon environment for the C5 witness: an amd64 image with one
supported Wasm layer in its manifest (which must not be fetched). -/
def c5Env : ClientEnv :=
  { get_container := fun _ => .ok { image := "img" },
    get_image := fun _ => .ok
      { name := "img",
        target := some { media_type := "manifest", digest := "mdg" },
        labels := [] },
    read_content := fun d =>
      if d = "mdg" then .ok [0]
      else if d = "cdg" then .ok [1]
      else .error (.Containerd "not found"),
    decodeManifest := fun _ => .ok
      { config := { media_type := "cfg", digest := "cdg" },
        layers := [{ media_type := "application/wasm", digest := "ldg" }] },
    decodePlatform := fun _ => .ok { architecture := .otherArch "amd64" },
    get_info := fun _ => .error (.Containerd "not found"),
    update_image := fun _ => .ok (),
    update_info := fun _ => .ok (),
    saveEnv :=
      { leaseCreate := .ok (some { id := "lid" }),
        writeOpen := .ok (),
        statResponse := .ok none,
        commitSend := .ok (),
        commitResponse := .ok none } }

/-- The engine for the C5 witness: supports Wasm layers and precompilation. -/
def c5Eng : Engine :=
  { name := "wasmtime",
    supported_layers_types := ["application/wasm"],
    can_precompile := some "v1",
    precompile := fun _ => .ok [9] }

/-- Witness for C5 at a concrete input. -/
theorem load_modules_arch_gate_witness :
    load_modules (fun _ => "h") c5Env c5Eng "cid" =
      (.ok [] { architecture := .otherArch "amd64" },
        [.getContainer "cid", .getImage "img", .readContent "mdg",
          .readContent "cdg"]) :=
  load_modules_arch_gate (fun _ => "h") c5Env c5Eng "cid"
    { image := "img" }
    { name := "img", target := some { media_type := "manifest", digest := "mdg" },
      labels := [] }
    { media_type := "manifest", digest := "mdg" } [0] [1]
    { config := { media_type := "cfg", digest := "cdg" },
      layers := [{ media_type := "application/wasm", digest := "ldg" }] }
    { architecture := .otherArch "amd64" } "amd64"
    rfl rfl rfl rfl rfl rfl rfl rfl

/-- C4: with a Wasm image and a precompiling engine, the cache lookup on the
image's label at the cache key has exactly three outcomes: (a) label present
and reading the digest succeeds — the run returns that content as the sole
layer (paired with the image config descriptor) and its trace stops right
after that read (no further fetch, precompile, save or update); (b) label
present but the read fails — the run continues as `load_modules_rest`
(recomputation), not with that error; (c) label absent — the run continues
as `load_modules_rest`. -/
theorem load_modules_cache_lookup (sha : Bytes → String) (env : ClientEnv) (eng : Engine)
    (cid : String) (container : Container) (image : Image) (td : OciDescriptor)
    (mb cb : Bytes) (manifest : Manifest) (platform : Platform) (v : String)
    (hc : env.get_container cid = .ok container)
    (hi : env.get_image container.image = .ok image)
    (ht : image.target = some td)
    (hm : env.read_content td.digest = .ok mb)
    (hdm : env.decodeManifest mb = .ok manifest)
    (hcf : env.read_content manifest.config.digest = .ok cb)
    (hdp : env.decodePlatform cb = .ok platform)
    (ha : platform.architecture = .wasm)
    (hcp : eng.can_precompile = some v) :
    (∀ pd pc, getLabel image.labels (precompile_label eng.name v) = some pd →
      env.read_content pd = .ok pc →
      load_modules sha env eng cid =
        (.ok [{ config := manifest.config, layer := pc }] platform,
          [.getContainer cid, .getImage container.image, .readContent td.digest,
            .readContent manifest.config.digest, .readContent pd])) ∧
    (∀ pd e, getLabel image.labels (precompile_label eng.name v) = some pd →
      env.read_content pd = .error e →
      load_modules sha env eng cid =
        ((load_modules_rest sha env eng image td.digest manifest.config platform
            manifest true (precompile_label eng.name v)).1,
          [.getContainer cid, .getImage container.image, .readContent td.digest,
            .readContent manifest.config.digest, .readContent pd] ++
          (load_modules_rest sha env eng image td.digest manifest.config platform
            manifest true (precompile_label eng.name v)).2)) ∧
    (getLabel image.labels (precompile_label eng.name v) = none →
      load_modules sha env eng cid =
        ((load_modules_rest sha env eng image td.digest manifest.config platform
            manifest true (precompile_label eng.name v)).1,
          [.getContainer cid, .getImage container.image, .readContent td.digest,
            .readContent manifest.config.digest] ++
          (load_modules_rest sha env eng image td.digest manifest.config platform
            manifest true (precompile_label eng.name v)).2)) := by
  refine ⟨?_, ?_, ?_⟩
  · intro pd pc h1 h2
    simp [load_modules, extract_image_content_sha, precompileIdOf, hc, hi, ht, hm, hdm,
      hcf, hdp, ha, hcp, h1, h2]
  · intro pd e h1 h2
    simp [load_modules, extract_image_content_sha, precompileIdOf, hc, hi, ht, hm, hdm,
      hcf, hdp, ha, hcp, h1, h2]
  · intro h1
    simp [load_modules, extract_image_content_sha, precompileIdOf, hc, hi, ht, hm, hdm,
      hcf, hdp, ha, hcp, h1]

/-- The daemon environment for the C4 witness: a Wasm image whose label set
carries the cache key pointing at `"pdg"`, whose content is readable. -/
def c4Env : ClientEnv :=
  { get_container := fun _ => .ok { image := "img" },
    get_image := fun _ => .ok
      { name := "img",
        target := some { media_type := "manifest", digest := "mdg" },
        labels := [("runwasi.io/precompiled/wasmtime/v1", "pdg")] },
    read_content := fun d =>
      if d = "mdg" then .ok [0]
      else if d = "cdg" then .ok [1]
      else if d = "pdg" then .ok [5]
      else .error (.Containerd "not found"),
    decodeManifest := fun _ => .ok
      { config := { media_type := "cfg", digest := "cdg" },
        layers := [{ media_type := "application/wasm", digest := "ldg" }] },
    decodePlatform := fun _ => .ok { architecture := .wasm },
    get_info := fun _ => .error (.Containerd "not found"),
    update_image := fun _ => .ok (),
    update_info := fun _ => .ok (),
    saveEnv :=
      { leaseCreate := .ok (some { id := "lid" }),
        writeOpen := .ok (),
        statResponse := .ok none,
        commitSend := .ok (),
        commitResponse := .ok none } }

/-- The engine for the C4 witness. -/
def c4Eng : Engine :=
  { name := "wasmtime",
    supported_layers_types := ["application/wasm"],
    can_precompile := some "v1",
    precompile := fun _ => .ok [9] }

/-- Witness for C4 at a concrete input (the cache-hit outcome applies; the
other two implications hold vacuously at this environment). -/
theorem load_modules_cache_lookup_witness :
    (∀ pd pc, getLabel [("runwasi.io/precompiled/wasmtime/v1", "pdg")]
        (precompile_label "wasmtime" "v1") = some pd →
      c4Env.read_content pd = .ok pc →
      load_modules (fun _ => "h") c4Env c4Eng "cid" =
        (.ok [{ config := { media_type := "cfg", digest := "cdg" }, layer := pc }]
            { architecture := .wasm },
          [.getContainer "cid", .getImage "img", .readContent "mdg",
            .readContent "cdg", .readContent pd])) ∧
    (∀ pd e, getLabel [("runwasi.io/precompiled/wasmtime/v1", "pdg")]
        (precompile_label "wasmtime" "v1") = some pd →
      c4Env.read_content pd = .error e →
      load_modules (fun _ => "h") c4Env c4Eng "cid" =
        ((load_modules_rest (fun _ => "h") c4Env c4Eng
            { name := "img",
              target := some { media_type := "manifest", digest := "mdg" },
              labels := [("runwasi.io/precompiled/wasmtime/v1", "pdg")] }
            "mdg" { media_type := "cfg", digest := "cdg" } { architecture := .wasm }
            { config := { media_type := "cfg", digest := "cdg" },
              layers := [{ media_type := "application/wasm", digest := "ldg" }] }
            true (precompile_label "wasmtime" "v1")).1,
          [.getContainer "cid", .getImage "img", .readContent "mdg",
            .readContent "cdg", .readContent pd] ++
          (load_modules_rest (fun _ => "h") c4Env c4Eng
            { name := "img",
              target := some { media_type := "manifest", digest := "mdg" },
              labels := [("runwasi.io/precompiled/wasmtime/v1", "pdg")] }
            "mdg" { media_type := "cfg", digest := "cdg" } { architecture := .wasm }
            { config := { media_type := "cfg", digest := "cdg" },
              layers := [{ media_type := "application/wasm", digest := "ldg" }] }
            true (precompile_label "wasmtime" "v1")).2)) ∧
    (getLabel [("runwasi.io/precompiled/wasmtime/v1", "pdg")]
        (precompile_label "wasmtime" "v1") = none →
      load_modules (fun _ => "h") c4Env c4Eng "cid" =
        ((load_modules_rest (fun _ => "h") c4Env c4Eng
            { name := "img",
              target := some { media_type := "manifest", digest := "mdg" },
              labels := [("runwasi.io/precompiled/wasmtime/v1", "pdg")] }
            "mdg" { media_type := "cfg", digest := "cdg" } { architecture := .wasm }
            { config := { media_type := "cfg", digest := "cdg" },
              layers := [{ media_type := "application/wasm", digest := "ldg" }] }
            true (precompile_label "wasmtime" "v1")).1,
          [.getContainer "cid", .getImage "img", .readContent "mdg",
            .readContent "cdg"] ++
          (load_modules_rest (fun _ => "h") c4Env c4Eng
            { name := "img",
              target := some { media_type := "manifest", digest := "mdg" },
              labels := [("runwasi.io/precompiled/wasmtime/v1", "pdg")] }
            "mdg" { media_type := "cfg", digest := "cdg" } { architecture := .wasm }
            { config := { media_type := "cfg", digest := "cdg" },
              layers := [{ media_type := "application/wasm", digest := "ldg" }] }
            true (precompile_label "wasmtime" "v1")).2)) :=
  load_modules_cache_lookup (fun _ => "h") c4Env c4Eng "cid"
    { image := "img" }
    { name := "img", target := some { media_type := "manifest", digest := "mdg" },
      labels := [("runwasi.io/precompiled/wasmtime/v1", "pdg")] }
    { media_type := "manifest", digest := "mdg" } [0] [1]
    { config := { media_type := "cfg", digest := "cdg" },
      layers := [{ media_type := "application/wasm", digest := "ldg" }] }
    { architecture := .wasm } "v1"
    rfl rfl rfl rfl rfl rfl rfl rfl rfl

/-- Every call the layer-fetch loop makes is a content read of one of the
descriptors it was given. -/
theorem fetchLayers_reads (env : ClientEnv) (descs : List OciDescriptor) :
    ∀ c ∈ (fetchLayers env descs).2, ∃ d ∈ descs, c = .readContent d.digest := by
  induction descs with
  | nil => simp [fetchLayers]
  | cons d rest ih =>
    intro c hc
    rcases hr : env.read_content d.digest with e | b
    · simp [fetchLayers, hr] at hc
      exact ⟨d, by simp, hc⟩
    · rcases hfr : fetchLayers env rest with ⟨r, tr⟩
      rcases r with e2 | bs <;>
      · simp [fetchLayers, hr, hfr] at hc
        rcases hc with hc | hc
        · exact ⟨d, by simp, hc⟩
        · have := ih c (by rw [hfr]; exact hc)
          rcases this with ⟨d2, hd2, hcd⟩
          exact ⟨d2, by simp [hd2], hcd⟩

/-- On success the layer-fetch loop reads exactly the given descriptors, in
order. -/
theorem fetchLayers_trace_of_ok (env : ClientEnv) (descs : List OciDescriptor)
    (bs : List Bytes) (tr : List Call)
    (h : fetchLayers env descs = (.ok bs, tr)) :
    tr = descs.map (fun d => .readContent d.digest) := by
  induction descs generalizing bs tr with
  | nil => simp [fetchLayers] at h; simp [h.2]
  | cons d rest ih =>
    rcases hr : env.read_content d.digest with e | b
    · simp [fetchLayers, hr] at h
    · rcases hfr : fetchLayers env rest with ⟨r, tr2⟩
      rcases r with e2 | bs2
      · simp [fetchLayers, hr, hfr] at h
      · simp [fetchLayers, hr, hfr] at h
        simp [← h.2, ih bs2 tr2 (by rw [hfr])]

/-- Every content read occurring in the post-cache tail of `load_modules` is
a read of a supported layer's digest: the calls appended after the fetch
loop (precompile, save, label updates, info lookup) are not content reads. -/
theorem load_modules_rest_reads (sha : Bytes → String) (env : ClientEnv) (eng : Engine)
    (image : Image) (image_digest : String) (cfgDesc : OciDescriptor)
    (platform : Platform) (manifest : Manifest) (canPre : Bool) (pid : String) :
    ∀ dg, Call.readContent dg ∈ (load_modules_rest sha env eng image image_digest
        cfgDesc platform manifest canPre pid).2 →
      ∃ x ∈ manifest.layers.filter
        (fun y => is_supported_layer y.media_type eng.supported_layers_types),
        dg = x.digest := by
  intro dg hmem
  have hfl := fetchLayers_reads env (manifest.layers.filter
    (fun y => is_supported_layer y.media_type eng.supported_layers_types))
  have hoftr : ∀ tr : List Call, (∀ c ∈ tr, ∃ d ∈ manifest.layers.filter
      (fun y => is_supported_layer y.media_type eng.supported_layers_types),
      c = .readContent d.digest) → Call.readContent dg ∈ tr →
      ∃ x ∈ manifest.layers.filter
        (fun y => is_supported_layer y.media_type eng.supported_layers_types),
        dg = x.digest := by
    intro tr htr hin
    rcases htr _ hin with ⟨d, hd, hcd⟩
    exact ⟨d, hd, by injection hcd⟩
  unfold load_modules_rest at hmem
  simp only [] at hmem
  rcases hf : fetchLayers env (manifest.layers.filter
    (fun y => is_supported_layer y.media_type eng.supported_layers_types))
    with ⟨r, tr⟩
  rw [hf] at hmem hfl
  have htr := fun c hc => hfl c hc
  rcases r with e | layers
  · exact hoftr tr htr hmem
  · by_cases hemp : layers.isEmpty
    · simp only [hemp, if_true] at hmem
      exact hoftr tr htr hmem
    · rcases hcp : canPre with _ | _
      · simp [hemp, hcp] at hmem
        exact hoftr tr htr hmem
      · simp only [hemp, hcp] at hmem
        simp only [Bool.false_eq_true, if_false, if_true] at hmem
        rcases hpc : eng.precompile layers with e2 | precompiled
        · simp [hpc] at hmem
          exact hoftr tr htr hmem
        · simp only [hpc] at hmem
          rcases hsv : save_content sha env.saveEnv precompiled image_digest pid
            with ⟨so, str⟩
          simp only [hsv] at hmem
          rcases so with wdg | e3 | _
          · rcases hui : env.update_image { name := image.name, target := image.target, labels := insertLabel image.labels pid wdg } with e4 | u
            · simp [hui] at hmem
              exact hoftr tr htr hmem
            · simp only [hui] at hmem
              rcases hgi : env.get_info image_digest with e5 | info
              · simp [hgi] at hmem
                exact hoftr tr htr hmem
              · simp only [hgi] at hmem
                rcases huf : env.update_info { digest := info.digest, labels := insertLabel info.labels "containerd.io/gc.ref.content.precompile" wdg } with e6 | u2
                · simp [huf] at hmem
                  exact hoftr tr htr hmem
                · simp [huf] at hmem
                  exact hoftr tr htr hmem
          · simp at hmem
            exact hoftr tr htr hmem
          · simp at hmem
            exact hoftr tr htr hmem

/-- C6: once the run passes the architecture gate and the cache lookup falls
through, (1) every content read it performs is either the manifest read, the
config read, or the read of a *supported* layer's digest — layers whose
media type is not in the engine's supported set are never fetched — and
(2) if no layer's media type is supported, the run returns an empty layer
list with the platform, fetching nothing beyond manifest and config. -/
theorem load_modules_layer_filtering (sha : Bytes → String) (env : ClientEnv)
    (eng : Engine) (cid : String) (container : Container) (image : Image)
    (td : OciDescriptor) (mb cb : Bytes) (manifest : Manifest) (platform : Platform)
    (pid : String)
    (hc : env.get_container cid = .ok container)
    (hi : env.get_image container.image = .ok image)
    (ht : image.target = some td)
    (hm : env.read_content td.digest = .ok mb)
    (hdm : env.decodeManifest mb = .ok manifest)
    (hcf : env.read_content manifest.config.digest = .ok cb)
    (hdp : env.decodePlatform cb = .ok platform)
    (ha : platform.architecture = .wasm)
    (hpid : (precompileIdOf eng).2 = pid)
    (hnolabel : getLabel image.labels pid = none) :
    (∀ dg, Call.readContent dg ∈ (load_modules sha env eng cid).2 →
      dg = td.digest ∨ dg = manifest.config.digest ∨
      ∃ x ∈ manifest.layers.filter
        (fun y => is_supported_layer y.media_type eng.supported_layers_types),
        dg = x.digest) ∧
    (manifest.layers.filter
        (fun y => is_supported_layer y.media_type eng.supported_layers_types) = [] →
      load_modules sha env eng cid =
        (.ok [] platform,
          [.getContainer cid, .getImage container.image, .readContent td.digest,
            .readContent manifest.config.digest])) := by
  have hload : load_modules sha env eng cid =
      ((load_modules_rest sha env eng image td.digest manifest.config platform manifest
          (precompileIdOf eng).1 pid).1,
        [.getContainer cid, .getImage container.image, .readContent td.digest,
          .readContent manifest.config.digest] ++
        (load_modules_rest sha env eng image td.digest manifest.config platform manifest
          (precompileIdOf eng).1 pid).2) := by
    simp [load_modules, extract_image_content_sha, hc, hi, ht, hm, hdm, hcf, hdp, ha,
      hpid, hnolabel]
  constructor
  · intro dg hdg
    rw [hload] at hdg
    simp only [List.mem_append, List.mem_cons, List.not_mem_nil, or_false] at hdg
    rcases hdg with (h | h | h | h) | h
    · exact absurd h (by simp)
    · exact absurd h (by simp)
    · exact .inl (by injection h)
    · exact .inr (.inl (by injection h))
    · exact .inr (.inr (load_modules_rest_reads sha env eng image td.digest
        manifest.config platform manifest (precompileIdOf eng).1 pid dg h))
  · intro hflt
    rw [hload]
    have hrest : load_modules_rest sha env eng image td.digest manifest.config platform
        manifest (precompileIdOf eng).1 pid = (.ok [] platform, []) := by
      simp [load_modules_rest, hflt, fetchLayers]
    simp [hrest]

/-- The daemon environment for the C6 witness: a Wasm image, no cache label,
a manifest with one supported and one unsupported layer; only the supported
layer's digest resolves. -/
def c6Env : ClientEnv :=
  { get_container := fun _ => .ok { image := "img" },
    get_image := fun _ => .ok
      { name := "img",
        target := some { media_type := "manifest", digest := "mdg" },
        labels := [] },
    read_content := fun d =>
      if d = "mdg" then .ok [0]
      else if d = "cdg" then .ok [1]
      else if d = "wasm-layer" then .ok [3]
      else .error (.Containerd "not found"),
    decodeManifest := fun _ => .ok
      { config := { media_type := "cfg", digest := "cdg" },
        layers := [{ media_type := "application/wasm", digest := "wasm-layer" },
          { media_type := "text/plain", digest := "asset-layer" }] },
    decodePlatform := fun _ => .ok { architecture := .wasm },
    get_info := fun _ => .error (.Containerd "not found"),
    update_image := fun _ => .ok (),
    update_info := fun _ => .ok (),
    saveEnv :=
      { leaseCreate := .ok (some { id := "lid" }),
        writeOpen := .error { code := .alreadyExists, rendered := "exists" },
        statResponse := .ok none,
        commitSend := .ok (),
        commitResponse := .ok none } }

/-- The engine for the C6 witness: supports only `application/wasm` and does
not precompile. -/
def c6Eng : Engine :=
  { name := "wasmtime",
    supported_layers_types := ["application/wasm"],
    can_precompile := none,
    precompile := fun _ => .ok [9] }

/-- Witness for C6 at a concrete input with mixed layer media types. -/
theorem load_modules_layer_filtering_witness :
    (∀ dg, Call.readContent dg ∈ (load_modules (fun _ => "h") c6Env c6Eng "cid").2 →
      dg = "mdg" ∨ dg = "cdg" ∨
      ∃ x ∈ ([{ media_type := "application/wasm", digest := "wasm-layer" },
          { media_type := "text/plain", digest := "asset-layer" }] :
            List OciDescriptor).filter
        (fun y => is_supported_layer y.media_type c6Eng.supported_layers_types),
        dg = x.digest) ∧
    (([{ media_type := "application/wasm", digest := "wasm-layer" },
        { media_type := "text/plain", digest := "asset-layer" }] :
          List OciDescriptor).filter
        (fun y => is_supported_layer y.media_type c6Eng.supported_layers_types) = [] →
      load_modules (fun _ => "h") c6Env c6Eng "cid" =
        (.ok [] { architecture := .wasm },
          [.getContainer "cid", .getImage "img", .readContent "mdg",
            .readContent "cdg"])) :=
  load_modules_layer_filtering (fun _ => "h") c6Env c6Eng "cid"
    { image := "img" }
    { name := "img", target := some { media_type := "manifest", digest := "mdg" },
      labels := [] }
    { media_type := "manifest", digest := "mdg" } [0] [1]
    { config := { media_type := "cfg", digest := "cdg" },
      layers := [{ media_type := "application/wasm", digest := "wasm-layer" },
        { media_type := "text/plain", digest := "asset-layer" }] }
    { architecture := .wasm } ""
    rfl rfl rfl rfl rfl rfl rfl rfl rfl rfl

/-- Looking up a key right after replacing its value in place finds the new
value (the `HashMap::insert` overwrite case). -/
theorem getLabel_replace (ls : List (String × String)) (k v : String)
    (h : ls.any (fun p => p.1 == k) = true) :
    getLabel (ls.map (fun p => if p.1 == k then (k, v) else p)) k = some v := by
  induction ls with
  | nil => simp at h
  | cons p rest ih =>
    cases hb : (p.1 == k)
    · simp only [List.any_cons, hb, Bool.false_or] at h
      unfold getLabel at ih ⊢
      rw [List.map_cons]
      have hfp : (if (p.1 == k) = true then (k, v) else p) = p := by simp [hb]
      rw [hfp, List.find?_cons_of_neg _ (by simp [hb])]
      exact ih h
    · unfold getLabel
      rw [List.map_cons]
      have hfp : (if (p.1 == k) = true then (k, v) else p) = (k, v) := by simp [hb]
      rw [hfp, List.find?_cons_of_pos _ (by simp)]
      rfl

/-- Looking up a key right after appending a fresh binding for it finds the
new value (the `HashMap::insert` fresh-key case). -/
theorem getLabel_append_new (ls : List (String × String)) (k v : String)
    (h : ls.any (fun p => p.1 == k) = false) :
    getLabel (ls ++ [(k, v)]) k = some v := by
  induction ls with
  | nil =>
    unfold getLabel
    rw [List.nil_append, List.find?_cons_of_pos _ (by simp)]
    rfl
  | cons p rest ih =>
    simp only [List.any_cons, Bool.or_eq_false_iff] at h
    unfold getLabel at ih ⊢
    rw [List.cons_append, List.find?_cons_of_neg _ (by simp [h.1])]
    exact ih h.2

/-- `HashMap::insert` followed by a lookup of the same key yields the
inserted value. -/
theorem getLabel_insertLabel (ls : List (String × String)) (k v : String) :
    getLabel (insertLabel ls k v) k = some v := by
  unfold insertLabel
  cases h : ls.any (fun p => p.1 == k)
  · simp only [h, Bool.false_eq_true, if_false]
    exact getLabel_append_new ls k v h
  · simp only [h, if_true]
    exact getLabel_replace ls k v h

/-- C8: on a run where the engine precompiles successfully and the artifact
is saved, `load_modules` (1) issues an image update whose labels carry the
cache key mapped to the new artifact's digest and (2) issues a content-info
update on the manifest digest's record whose labels carry
`containerd.io/gc.ref.content.precompile` mapped to that digest, and then
returns the precompiled artifact as the sole layer. -/
theorem load_modules_precompile_persists (sha : Bytes → String) (env : ClientEnv)
    (eng : Engine) (cid : String) (container : Container) (image : Image)
    (td : OciDescriptor) (mb cb : Bytes) (manifest : Manifest) (platform : Platform)
    (v pid : String) (layers : List Bytes) (ftr : List Call) (precompiled : Bytes)
    (wdg : String) (str : List WriteContentRequest) (info : Info)
    (hc : env.get_container cid = .ok container)
    (hi : env.get_image container.image = .ok image)
    (ht : image.target = some td)
    (hm : env.read_content td.digest = .ok mb)
    (hdm : env.decodeManifest mb = .ok manifest)
    (hcf : env.read_content manifest.config.digest = .ok cb)
    (hdp : env.decodePlatform cb = .ok platform)
    (ha : platform.architecture = .wasm)
    (hcp : eng.can_precompile = some v)
    (hpid : pid = precompile_label eng.name v)
    (hnolabel : getLabel image.labels pid = none)
    (hfetch : fetchLayers env (manifest.layers.filter
      (fun y => is_supported_layer y.media_type eng.supported_layers_types)) =
      (.ok layers, ftr))
    (hne : layers.isEmpty = false)
    (hpre : eng.precompile layers = .ok precompiled)
    (hsave : save_content sha env.saveEnv precompiled td.digest pid = (.ok wdg, str))
    (hui : env.update_image { name := image.name, target := image.target, labels := insertLabel image.labels pid wdg } = .ok ())
    (hgi : env.get_info td.digest = .ok info)
    (huf : env.update_info { digest := info.digest, labels := insertLabel info.labels "containerd.io/gc.ref.content.precompile" wdg } = .ok ()) :
    (load_modules sha env eng cid).1 =
      .ok [{ config := manifest.config, layer := precompiled }] platform ∧
    Call.updateImage (insertLabel image.labels pid wdg) ∈
      (load_modules sha env eng cid).2 ∧
    Call.updateInfo (insertLabel info.labels "containerd.io/gc.ref.content.precompile" wdg) ∈
      (load_modules sha env eng cid).2 ∧
    getLabel (insertLabel image.labels pid wdg) pid = some wdg ∧
    getLabel (insertLabel info.labels "containerd.io/gc.ref.content.precompile" wdg)
      "containerd.io/gc.ref.content.precompile" = some wdg := by
  subst hpid
  rw [ht] at hui
  refine ⟨?_, ?_, ?_, getLabel_insertLabel _ _ _, getLabel_insertLabel _ _ _⟩ <;>
    simp [load_modules, load_modules_rest, extract_image_content_sha, precompileIdOf,
      hc, hi, ht, hm, hdm, hcf, hdp, ha, hcp, hnolabel, hfetch, hne, hpre, hsave,
      hui, hgi, huf]

/-- The daemon environment for the C8 witness: a Wasm image with one
supported layer, no cache label, a content store whose stat phase reports
the artifact already exists, and succeeding update calls. -/
def c8Env : ClientEnv :=
  { get_container := fun _ => .ok { image := "img" },
    get_image := fun _ => .ok
      { name := "img",
        target := some { media_type := "manifest", digest := "mdg" },
        labels := [] },
    read_content := fun d =>
      if d = "mdg" then .ok [0]
      else if d = "cdg" then .ok [1]
      else if d = "wasm-layer" then .ok [3]
      else .error (.Containerd "not found"),
    decodeManifest := fun _ => .ok
      { config := { media_type := "cfg", digest := "cdg" },
        layers := [{ media_type := "application/wasm", digest := "wasm-layer" }] },
    decodePlatform := fun _ => .ok { architecture := .wasm },
    get_info := fun d =>
      if d = "mdg" then .ok { digest := "mdg", labels := [] }
      else .error (.Containerd "not found"),
    update_image := fun _ => .ok (),
    update_info := fun _ => .ok (),
    saveEnv :=
      { leaseCreate := .ok (some { id := "lid" }),
        writeOpen := .error { code := .alreadyExists, rendered := "exists" },
        statResponse := .ok none,
        commitSend := .ok (),
        commitResponse := .ok none } }

/-- The engine for the C8 witness. -/
def c8Eng : Engine :=
  { name := "wasmtime",
    supported_layers_types := ["application/wasm"],
    can_precompile := some "v1",
    precompile := fun _ => .ok [9] }

/-- Witness for C8 at a concrete input. -/
theorem load_modules_precompile_persists_witness :
    (load_modules (fun _ => "h") c8Env c8Eng "cid").1 =
      .ok [{ config := { media_type := "cfg", digest := "cdg" }, layer := [9] }]
        { architecture := .wasm } ∧
    Call.updateImage (insertLabel [] (precompile_label "wasmtime" "v1")
        (mkExpected (fun _ => "h") [9])) ∈
      (load_modules (fun _ => "h") c8Env c8Eng "cid").2 ∧
    Call.updateInfo (insertLabel [] "containerd.io/gc.ref.content.precompile"
        (mkExpected (fun _ => "h") [9])) ∈
      (load_modules (fun _ => "h") c8Env c8Eng "cid").2 ∧
    getLabel (insertLabel [] (precompile_label "wasmtime" "v1")
        (mkExpected (fun _ => "h") [9]))
      (precompile_label "wasmtime" "v1") = some (mkExpected (fun _ => "h") [9]) ∧
    getLabel (insertLabel [] "containerd.io/gc.ref.content.precompile"
        (mkExpected (fun _ => "h") [9]))
      "containerd.io/gc.ref.content.precompile" =
        some (mkExpected (fun _ => "h") [9]) :=
  load_modules_precompile_persists (fun _ => "h") c8Env c8Eng "cid"
    { image := "img" }
    { name := "img", target := some { media_type := "manifest", digest := "mdg" },
      labels := [] }
    { media_type := "manifest", digest := "mdg" } [0] [1]
    { config := { media_type := "cfg", digest := "cdg" },
      layers := [{ media_type := "application/wasm", digest := "wasm-layer" }] }
    { architecture := .wasm } "v1" (precompile_label "wasmtime" "v1")
    [[3]] [.readContent "wasm-layer"] [9] (mkExpected (fun _ => "h") [9])
    [statRequest ("precompile-" ++ precompile_label "wasmtime" "v1")
      (mkExpected (fun _ => "h") [9]) (([9] : Bytes).length : Int)]
    { digest := "mdg", labels := [] }
    rfl rfl rfl rfl rfl rfl rfl rfl rfl rfl rfl rfl rfl rfl rfl rfl rfl rfl
